import Mathlib

/-!
Shallow embedding of the dual-write coordination and synchronization-validation
engine of the auth-microservice repository:

* `src/backend/shared/dual_write_manager.py` — `DualWriteConfig`,
  `DualWriteResult`, `BaseDualWriteManager.dual_write` and its helpers;
* `src/backend/shared/sync_validator.py` — `SyncValidationResult`,
  `DataSyncValidator.validate_entity_sync`, `_compare_entity_data`,
  `_normalize_value`;
* `src/backend/shared/dual_write_config.py` — `DualWriteSettings.from_env`,
  `_get_bool_env`, `_get_int_env`, `DualWriteConfigManager.update_settings`
  and the cut-over convenience operations.

Store operations are async callables in the source; here their observable
behaviour is passed as a value: `Option E` where `none` means "ran and
committed" and `some e` means "raised exception e" (the per-operation
rollback on exception is internal to the store and not otherwise observable
in the result object).  Exceptions are an abstract type `E`; a raise out of
`dual_write` is an `Except.error`.  Wall-clock timestamp fields
(`DualWriteResult.timestamp`, `SyncValidationResult.validation_timestamp`)
carry no claim-relevant information and are not modelled.
-/

/-- `DualWriteConfig.__init__` defaults (dual_write_manager.py lines 19-38). -/
structure DualWriteConfig where
  enabled : Bool := true
  write_to_legacy : Bool := true
  write_to_new : Bool := true
  validate_sync : Bool := true
  fail_on_legacy_error : Bool := false
  fail_on_new_error : Bool := true
  sync_validation_interval : Int := 300
  deriving DecidableEq, Repr

/-- `DualWriteResult.__init__` (dual_write_manager.py lines 41-50); the
`timestamp` field is not modelled. -/
structure DualWriteResult (E : Type) where
  new_db_success : Bool := false
  legacy_db_success : Bool := false
  new_db_error : Option E := none
  legacy_db_error : Option E := none
  sync_validated : Bool := false
  deriving DecidableEq, Repr

/-- `DualWriteResult.success` (lines 52-55):
`self.new_db_success and (self.legacy_db_success or not self.legacy_db_error)`.
An exception object is truthy in Python, so `not self.legacy_db_error`
holds exactly when `legacy_db_error` is `None`. -/
def DualWriteResult.success {E : Type} (r : DualWriteResult E) : Bool :=
  r.new_db_success && (r.legacy_db_success || r.legacy_db_error.isNone)

/-- `BaseDualWriteManager._execute_new_db_only` (lines 175-191): run the
new-store operation in one transaction; on success record
`new_db_success = True` and return the result, on exception record the
error and re-raise unconditionally. -/
def execute_new_db_only {E : Type} (op : Option E) (r : DualWriteResult E) :
    Except E (DualWriteResult E) :=
  match op with
  | none => .ok { r with new_db_success := true }
  | some e => .error e

/-- `BaseDualWriteManager._execute_new_db_operation` (lines 193-209) as a
task under `asyncio.gather(..., return_exceptions=True)`: the exception is
recorded on the result; the conditional re-raise inside the task is captured
by `gather` and discarded, so only the recorded fields are observable. -/
def execute_new_db_operation {E : Type} (op : Option E) (r : DualWriteResult E) :
    DualWriteResult E :=
  match op with
  | none => { r with new_db_success := true }
  | some e => { r with new_db_error := some e }

/-- `BaseDualWriteManager._execute_legacy_db_operation` (lines 211-227),
likewise as a gathered task. -/
def execute_legacy_db_operation {E : Type} (op : Option E) (r : DualWriteResult E) :
    DualWriteResult E :=
  match op with
  | none => { r with legacy_db_success := true }
  | some e => { r with legacy_db_error := some e }

/-- The task-building-and-gather phase of `dual_write` (lines 141-151).
The two tasks touch disjoint fields of the result object, so gathering them
concurrently is observationally this sequential record update. -/
def gatherWrites {E : Type} (cfg : DualWriteConfig) (new_op legacy_op : Option E) :
    DualWriteResult E :=
  let r : DualWriteResult E := {}
  let r := if cfg.write_to_new then execute_new_db_operation new_op r else r
  if cfg.write_to_legacy then execute_legacy_db_operation legacy_op r else r

/-- The sync-validation phase of `dual_write` (lines 153-161):
`if self.config.validate_sync and validation_operation:` then record the
returned boolean, catching any exception as `sync_validated = False`.
The behaviour of the supplied validation operation is a value:
`none` when no operation was supplied, `some (.ok b)` when it returns `b`,
`some (.error e)` when it raises `e`. -/
def applyValidation {E : Type} (cfg : DualWriteConfig)
    (validation_op : Option (Except E Bool)) (r : DualWriteResult E) :
    DualWriteResult E :=
  if cfg.validate_sync then
    match validation_op with
    | none => r
    | some (.ok b) => { r with sync_validated := b }
    | some (.error _) => { r with sync_validated := false }
  else r

/-- The failure-policy phase of `dual_write` (lines 163-170):
`if fail_on_new_error and result.new_db_error: raise result.new_db_error`,
then the same for the legacy error, else return the result. -/
def applyFailPolicy {E : Type} (cfg : DualWriteConfig) (r : DualWriteResult E) :
    Except E (DualWriteResult E) :=
  if cfg.fail_on_new_error then
    match r.new_db_error with
    | some e => .error e
    | none =>
      if cfg.fail_on_legacy_error then
        match r.legacy_db_error with
        | some e => .error e
        | none => .ok r
      else .ok r
  else
    if cfg.fail_on_legacy_error then
      match r.legacy_db_error with
      | some e => .error e
      | none => .ok r
    else .ok r

/-- `BaseDualWriteManager.dual_write` (lines 114-173).  When disabled it
delegates to `_execute_new_db_only`; when enabled it gathers the enabled
store operations, runs the validation phase, then applies the failure
policy. -/
def dual_write {E : Type} (cfg : DualWriteConfig) (new_op legacy_op : Option E)
    (validation_op : Option (Except E Bool)) : Except E (DualWriteResult E) :=
  if !cfg.enabled then
    execute_new_db_only new_op {}
  else
    applyFailPolicy cfg (applyValidation cfg validation_op (gatherWrites cfg new_op legacy_op))

/-!
Sync validator (`src/backend/shared/sync_validator.py`).  Database cell
values are modelled by `PyValue`: SQL NULL is `vnull`, timestamps carry
whole seconds plus a microsecond part, numeric values (Python `int` and
`float`, which includes `bool`) are exact rationals, strings are strings,
and any other object is an opaque tag compared by equality.
-/

/-- Python `str.strip()` with no arguments: remove leading and trailing
whitespace. -/
def pyStrip (s : String) : String :=
  ⟨((s.data.dropWhile Char.isWhitespace).reverse.dropWhile Char.isWhitespace).reverse⟩

/-- A cell value as seen by `_normalize_value`. -/
inductive PyValue where
  | vnull
  | vdatetime (sec : Int) (usec : Nat)
  | vnum (q : Rat)
  | vstr (s : String)
  | vother (tag : Nat)
  deriving DecidableEq, Repr

/-- Round a rational to the nearest integer, ties to the even integer:
the rounding used by the Python builtin `round`. -/
def roundHalfEven (q : Rat) : Int :=
  if q - (⌊q⌋ : Rat) < 1 / 2 then ⌊q⌋
  else if 1 / 2 < q - (⌊q⌋ : Rat) then ⌊q⌋ + 1
  else if ⌊q⌋ % 2 = 0 then ⌊q⌋ else ⌊q⌋ + 1

/-- `round(float(value), 2)`: round to two decimal places, ties to even. -/
def pyRound2 (q : Rat) : Rat :=
  (roundHalfEven (q * 100) : Rat) / 100

/-- `DataSyncValidator._normalize_value` (sync_validator.py lines 162-180):
`None` stays `None`; a datetime has its microseconds truncated; a numeric
value is rounded to 2 decimal places; a string is stripped of leading and
trailing whitespace; anything else is returned unchanged. -/
def normalize_value : PyValue → PyValue
  | .vnull => .vnull
  | .vdatetime sec _ => .vdatetime sec 0
  | .vnum q => .vnum (pyRound2 q)
  | .vstr s => .vstr (pyStrip s)
  | .vother t => .vother t

/-- A fetched row: an association list from field name to value
(`dict(row._mapping)`). -/
def Row : Type := List (String × PyValue)

/-- `dict.get(field)`: `None` when the key is absent. -/
def rowGet (row : Row) (f : String) : PyValue :=
  match List.lookup f row with
  | some v => v
  | none => .vnull

/-- One entry of `SyncValidationResult.differences`
(`add_difference`, sync_validator.py lines 29-35). -/
structure Diff where
  field : String
  new_db_value : PyValue
  legacy_db_value : PyValue
  deriving DecidableEq, Repr

/-- `set(new_data.keys()) | set(legacy_data.keys())`: the union of the field
names.  A Python set iterates in an unspecified order; this model fixes the
first-occurrence order, which all the properties proved here are
insensitive to. -/
def allFields (new_data legacy_data : Row) : List String :=
  (new_data.map Prod.fst ++ legacy_data.map Prod.fst).eraseDups

/-- The body of the comparison loop of `_compare_entity_data` for one
field: skipped fields and fields whose normalized values agree produce no
difference entry; otherwise the entry carries both raw values. -/
def diffOfField (new_data legacy_data : Row) (ignore_fields : List String)
    (f : String) : Option Diff :=
  if ignore_fields.contains f then none
  else
    let nv := rowGet new_data f
    let lv := rowGet legacy_data f
    if normalize_value nv ≠ normalize_value lv then
      some { field := f, new_db_value := nv, legacy_db_value := lv }
    else none

/-- `DataSyncValidator._compare_entity_data` (lines 132-160): fold over the
union of field names, collecting differences in order and clearing the
synchronized flag whenever one is found.  Returns
(is_synchronized, differences). -/
def compare_entity_data (new_data legacy_data : Row) (ignore_fields : List String) :
    Bool × List Diff :=
  (allFields new_data legacy_data).foldl
    (fun acc f =>
      match diffOfField new_data legacy_data ignore_fields f with
      | some d => (false, acc.2 ++ [d])
      | none => acc)
    (true, [])

/-- `SyncValidationResult.__init__` (sync_validator.py lines 16-27); the
`validation_timestamp` field is not modelled. -/
structure SyncValidationResult where
  entity_id : String
  entity_type : String
  is_synchronized : Bool := false
  differences : List Diff := []
  new_db_data : Option Row := none
  legacy_db_data : Option Row := none
  error_message : Option String := none

/-- Python `str` of a boolean. -/
def pyStrOfBool (b : Bool) : String :=
  if b then "True" else "False"

/-- `DataSyncValidator.validate_entity_sync` (lines 58-112).  The outcome
of each `_fetch_entity_data` call is passed as a value: `.error e` when the
fetch raised (message `e`), `.ok none` when the row is absent, `.ok (some
row)` when present.  The legacy fetch runs only after the new fetch
returned; the snapshots are assigned to the result only after both fetches
returned, so a raising fetch leaves both snapshots at `None` and sets only
`error_message`. -/
def validate_entity_sync (entity_id entity_type : String)
    (new_fetch legacy_fetch : Except String (Option Row))
    (ignore_fields : List String) : SyncValidationResult :=
  match new_fetch with
  | .error e =>
    { entity_id := entity_id, entity_type := entity_type,
      error_message := some ("Validation error: " ++ e) }
  | .ok new_data =>
    match legacy_fetch with
    | .error e =>
      { entity_id := entity_id, entity_type := entity_type,
        error_message := some ("Validation error: " ++ e) }
    | .ok legacy_data =>
      let base : SyncValidationResult :=
        { entity_id := entity_id, entity_type := entity_type,
          new_db_data := new_data, legacy_db_data := legacy_data }
      match new_data, legacy_data with
      | none, none => { base with is_synchronized := true }
      | some nd, some ld =>
        let c := compare_entity_data nd ld ignore_fields
        { base with is_synchronized := c.1, differences := c.2 }
      | _, _ =>
        { base with
          error_message := some
            ("Entity exists in only one database: new_db=" ++
              pyStrOfBool new_data.isSome ++ ", legacy_db=" ++
              pyStrOfBool legacy_data.isSome) }

/-!
Configuration loading (`src/backend/shared/dual_write_config.py`).  The
process environment is an association list from variable name to string
value.  The model of Python `int()` parsing covers ASCII: surrounding
whitespace, an optional sign, and digits with single underscores between
digits; any other string fails to parse, as in Python.
-/

/-- The process environment. -/
def Env : Type := List (String × String)

/-- `os.getenv(key, default)`. -/
def envGet (env : Env) (key default : String) : String :=
  match List.lookup key env with
  | some v => v
  | none => default

/-- Python `str.lower()` (ASCII range). -/
def pyLower (s : String) : String :=
  ⟨s.data.map Char.toLower⟩

/-- After a leading digit, the rest of a Python integer literal: digits,
with each underscore standing between two digits. -/
def pyDigitsRest : List Char → Bool
  | [] => true
  | '_' :: [] => false
  | '_' :: d :: ds => d.isDigit && pyDigitsRest ds
  | c :: cs => c.isDigit && pyDigitsRest cs

/-- Numeric value of a digit string, skipping underscores. -/
def digitsToNat (cs : List Char) : Nat :=
  cs.foldl (fun acc c => if c = '_' then acc else acc * 10 + (c.toNat - 48)) 0

/-- The unsigned part of Python `int()` parsing: nonempty, starts with a
digit, then `pyDigitsRest`. -/
def pyIntParseDigits (cs : List Char) (pos : Bool) : Option Int :=
  match cs with
  | [] => none
  | c :: rest =>
    if c.isDigit && pyDigitsRest rest then
      let n := digitsToNat cs
      some (if pos then (n : Int) else -(n : Int))
    else none

/-- Python `int(s)` for a string: strip surrounding whitespace, optional
sign, digits with underscores between digits; `none` models `ValueError`. -/
def pyIntParse (s : String) : Option Int :=
  match (pyStrip s).data with
  | '+' :: rest => pyIntParseDigits rest true
  | '-' :: rest => pyIntParseDigits rest false
  | cs => pyIntParseDigits cs true

/-- Python `str` of an integer. -/
def pyStrOfInt (n : Int) : String :=
  toString n

/-- `DualWriteSettings._get_bool_env` (dual_write_config.py lines 59-63):
`os.getenv(key, str(default)).lower() in ('true', '1', 'yes', 'on')`. -/
def get_bool_env (env : Env) (key : String) (default : Bool) : Bool :=
  ["true", "1", "yes", "on"].contains (pyLower (envGet env key (pyStrOfBool default)))

/-- `DualWriteSettings._get_int_env` (lines 65-72):
`int(os.getenv(key, str(default)))`, falling back to the default on
`ValueError`. -/
def get_int_env (env : Env) (key : String) (default : Int) : Int :=
  match pyIntParse (envGet env key (pyStrOfInt default)) with
  | some n => n
  | none => default

/-- `DualWriteSettings` dataclass defaults (dual_write_config.py lines 13-37). -/
structure DualWriteSettings where
  enabled : Bool := true
  write_to_legacy : Bool := true
  write_to_new : Bool := true
  fail_on_legacy_error : Bool := false
  fail_on_new_error : Bool := true
  validate_sync : Bool := true
  sync_validation_interval : Int := 300
  async_legacy_writes : Bool := true
  batch_size : Int := 100
  log_all_operations : Bool := false
  log_errors_only : Bool := true
  metrics_enabled : Bool := true
  deriving DecidableEq, Repr

/-- The environment-variable name carrying a per-service name as an
upper-cased underscore-terminated head (`from_env`, line 42):
`f"SERVICE_" if service_name else ""` followed by the variable name. -/
def envKey (service_name varname : String) : String :=
  (if service_name = "" then "" else service_name.toUpper ++ "_") ++ varname

/-- `DualWriteSettings.from_env` (lines 39-57). -/
def DualWriteSettings.from_env (env : Env) (service_name : String) : DualWriteSettings :=
  { enabled := get_bool_env env (envKey service_name "DUAL_WRITE_ENABLED") true,
    write_to_legacy := get_bool_env env (envKey service_name "DUAL_WRITE_TO_LEGACY") true,
    write_to_new := get_bool_env env (envKey service_name "DUAL_WRITE_TO_NEW") true,
    fail_on_legacy_error :=
      get_bool_env env (envKey service_name "DUAL_WRITE_FAIL_ON_LEGACY_ERROR") false,
    fail_on_new_error :=
      get_bool_env env (envKey service_name "DUAL_WRITE_FAIL_ON_NEW_ERROR") true,
    validate_sync := get_bool_env env (envKey service_name "DUAL_WRITE_VALIDATE_SYNC") true,
    sync_validation_interval :=
      get_int_env env (envKey service_name "DUAL_WRITE_SYNC_INTERVAL") 300,
    async_legacy_writes := get_bool_env env (envKey service_name "DUAL_WRITE_ASYNC_LEGACY") true,
    batch_size := get_int_env env (envKey service_name "DUAL_WRITE_BATCH_SIZE") 100,
    log_all_operations := get_bool_env env (envKey service_name "DUAL_WRITE_LOG_ALL") false,
    log_errors_only := get_bool_env env (envKey service_name "DUAL_WRITE_LOG_ERRORS_ONLY") true,
    metrics_enabled := get_bool_env env (envKey service_name "DUAL_WRITE_METRICS_ENABLED") true }

/-- The keyword arguments of one `DualWriteConfigManager.update_settings`
call (lines 106-116): an optional new value per known field, plus the list
of keyword names that are not attributes of the settings object. -/
structure SettingsUpdate where
  enabled : Option Bool := none
  write_to_legacy : Option Bool := none
  write_to_new : Option Bool := none
  fail_on_legacy_error : Option Bool := none
  fail_on_new_error : Option Bool := none
  validate_sync : Option Bool := none
  sync_validation_interval : Option Int := none
  async_legacy_writes : Option Bool := none
  batch_size : Option Int := none
  log_all_operations : Option Bool := none
  log_errors_only : Option Bool := none
  metrics_enabled : Option Bool := none
  unknown_keys : List String := []

/-- `DualWriteConfigManager.update_settings` (lines 106-116): `setattr`
each provided known field (logged at info level, which is not a flag);
emit one warning per unknown keyword name.  Returns the mutated settings
and the warnings issued. -/
def update_settings (s : DualWriteSettings) (u : SettingsUpdate) :
    DualWriteSettings × List String :=
  ({ enabled := u.enabled.getD s.enabled,
     write_to_legacy := u.write_to_legacy.getD s.write_to_legacy,
     write_to_new := u.write_to_new.getD s.write_to_new,
     fail_on_legacy_error := u.fail_on_legacy_error.getD s.fail_on_legacy_error,
     fail_on_new_error := u.fail_on_new_error.getD s.fail_on_new_error,
     validate_sync := u.validate_sync.getD s.validate_sync,
     sync_validation_interval := u.sync_validation_interval.getD s.sync_validation_interval,
     async_legacy_writes := u.async_legacy_writes.getD s.async_legacy_writes,
     batch_size := u.batch_size.getD s.batch_size,
     log_all_operations := u.log_all_operations.getD s.log_all_operations,
     log_errors_only := u.log_errors_only.getD s.log_errors_only,
     metrics_enabled := u.metrics_enabled.getD s.metrics_enabled },
   u.unknown_keys.map (fun k => "Unknown dual-write setting: " ++ k))

/-- `DualWriteConfigManager.disable_dual_write` (lines 118-121). -/
def disable_dual_write (s : DualWriteSettings) : DualWriteSettings × List String :=
  update_settings s { enabled := some false }

/-- `DualWriteConfigManager.enable_dual_write` (lines 123-126). -/
def enable_dual_write (s : DualWriteSettings) : DualWriteSettings × List String :=
  update_settings s { enabled := some true }

/-- `DualWriteConfigManager.switch_to_new_db_only` (lines 128-136). -/
def switch_to_new_db_only (s : DualWriteSettings) : DualWriteSettings × List String :=
  update_settings s
    { write_to_legacy := some false, write_to_new := some true,
      fail_on_legacy_error := some false }

/-- `DualWriteConfigManager.switch_to_legacy_db_only` (lines 138-146). -/
def switch_to_legacy_db_only (s : DualWriteSettings) : DualWriteSettings × List String :=
  update_settings s
    { write_to_legacy := some true, write_to_new := some false,
      fail_on_new_error := some false }

/-!
Helper lemmas about the phases of `dual_write`.
-/

/-- The validation phase touches only `sync_validated`. -/
theorem applyValidation_preserves {E : Type} (cfg : DualWriteConfig)
    (v : Option (Except E Bool)) (r : DualWriteResult E) :
    (applyValidation cfg v r).new_db_success = r.new_db_success ∧
    (applyValidation cfg v r).legacy_db_success = r.legacy_db_success ∧
    (applyValidation cfg v r).new_db_error = r.new_db_error ∧
    (applyValidation cfg v r).legacy_db_error = r.legacy_db_error := by
  unfold applyValidation
  rcases v with _ | v
  · cases cfg.validate_sync <;> simp
  · rcases v with e | b <;> cases cfg.validate_sync <;> simp

/-- The validation phase does not change the derived success flag. -/
theorem applyValidation_success {E : Type} (cfg : DualWriteConfig)
    (v : Option (Except E Bool)) (r : DualWriteResult E) :
    (applyValidation cfg v r).success = r.success := by
  obtain ⟨h1, h2, h3, h4⟩ := applyValidation_preserves cfg v r
  unfold DualWriteResult.success
  rw [h1, h2, h4]

/-- The failure-policy phase returns either one of the recorded errors or
the result unchanged. -/
theorem applyFailPolicy_ok_eq {E : Type} (cfg : DualWriteConfig)
    (r r' : DualWriteResult E) (h : applyFailPolicy cfg r = .ok r') : r' = r := by
  unfold applyFailPolicy at h
  repeat' split at h
  all_goals simp_all

/-- When the new store recorded no error and legacy errors are tolerated,
the failure policy returns the result unchanged. -/
theorem applyFailPolicy_ok_of {E : Type} (cfg : DualWriteConfig)
    (r : DualWriteResult E) (hne : r.new_db_error = none)
    (hfl : cfg.fail_on_legacy_error = false) :
    applyFailPolicy cfg r = .ok r := by
  unfold applyFailPolicy
  rw [hne, hfl]
  cases cfg.fail_on_new_error <;> simp

/-- With the new-store write enabled and raising `e`, the gather phase
records exactly that error. -/
theorem gatherWrites_new_error {E : Type} (cfg : DualWriteConfig) (e : E)
    (legacy_op : Option E) (hwn : cfg.write_to_new = true) :
    (gatherWrites cfg (some e) legacy_op).new_db_error = some e := by
  unfold gatherWrites
  rw [hwn]
  cases cfg.write_to_legacy <;> cases legacy_op <;>
    simp [execute_new_db_operation, execute_legacy_db_operation]

/-- With the new-store write disabled, the gather phase leaves the
new-store fields at their defaults. -/
theorem gatherWrites_no_new {E : Type} (cfg : DualWriteConfig)
    (new_op legacy_op : Option E) (hwn : cfg.write_to_new = false) :
    (gatherWrites cfg new_op legacy_op).new_db_success = false ∧
    (gatherWrites cfg new_op legacy_op).new_db_error = none := by
  unfold gatherWrites
  rw [hwn]
  cases cfg.write_to_legacy <;> cases legacy_op <;>
    simp [execute_legacy_db_operation]

/-- When dual-write is enabled, `dual_write` is the gather phase followed
by the validation phase followed by the failure policy. -/
theorem dual_write_enabled {E : Type} (cfg : DualWriteConfig)
    (n l : Option E) (v : Option (Except E Bool)) (hen : cfg.enabled = true) :
    dual_write cfg n l v =
      applyFailPolicy cfg (applyValidation cfg v (gatherWrites cfg n l)) := by
  simp [dual_write, hen]

/-- When both recorded errors are absent the failure policy returns the
result unchanged, whatever the policy flags. -/
theorem applyFailPolicy_ok_of_noErrors {E : Type} (cfg : DualWriteConfig)
    (r : DualWriteResult E) (hne : r.new_db_error = none)
    (hle : r.legacy_db_error = none) :
    applyFailPolicy cfg r = .ok r := by
  unfold applyFailPolicy
  rw [hne, hle]
  cases cfg.fail_on_new_error <;> cases cfg.fail_on_legacy_error <;> simp

/-- Claim C1, counterexample.  With the default configuration
(enabled, both writes on, `fail_on_legacy_error=False`), a dual-write whose
new-store operation succeeds and whose legacy-store operation raises
returns normally — but the returned result has `success = False`, not
`True` as the claim states: `DualWriteResult.success` requires the legacy
error slot to be empty and does not consult the failure policy. -/
theorem c1_counterexample :
    ({} : DualWriteConfig).enabled = true ∧
    ({} : DualWriteConfig).write_to_new = true ∧
    ({} : DualWriteConfig).write_to_legacy = true ∧
    ({} : DualWriteConfig).fail_on_legacy_error = false ∧
    dual_write ({} : DualWriteConfig) (none : Option Nat) (some 0) none =
      .ok { new_db_success := true, legacy_db_error := some 0 } ∧
    DualWriteResult.success
      ({ new_db_success := true, legacy_db_error := some 0 } : DualWriteResult Nat) = false :=
  ⟨rfl, rfl, rfl, rfl, rfl, rfl⟩

/-- Claim C1, amended: with enabled=true, both writes on, a succeeding
new-store operation, a raising legacy-store operation and
`fail_on_legacy_error=false`, `dual_write` returns normally and the result
has `new_db_success = true`, `legacy_db_success = false`,
`legacy_db_error` set to the raised error — and derived
`success = false` (not `true` as the spec sentence states). -/
theorem c1_amended {E : Type} (cfg : DualWriteConfig) (e : E)
    (v : Option (Except E Bool))
    (hen : cfg.enabled = true) (hwn : cfg.write_to_new = true)
    (hwl : cfg.write_to_legacy = true) (hfl : cfg.fail_on_legacy_error = false) :
    ∃ r : DualWriteResult E,
      dual_write cfg none (some e) v = .ok r ∧
      r.new_db_success = true ∧ r.legacy_db_success = false ∧
      r.legacy_db_error = some e ∧ r.success = false := by
  have hg : gatherWrites cfg none (some e) =
      ({ new_db_success := true, legacy_db_error := some e } : DualWriteResult E) := by
    unfold gatherWrites
    rw [hwn, hwl]
    rfl
  obtain ⟨h1, h2, h3, h4⟩ := applyValidation_preserves cfg v (gatherWrites cfg none (some e))
  refine ⟨applyValidation cfg v (gatherWrites cfg none (some e)), ?_, ?_, ?_, ?_, ?_⟩
  · rw [dual_write_enabled cfg none (some e) v hen]
    exact applyFailPolicy_ok_of cfg _ (by rw [h3, hg]) hfl
  · rw [h1, hg]
  · rw [h2, hg]
  · rw [h4, hg]
  · rw [applyValidation_success cfg v _, hg]
    rfl

/-- Witness for `c1_amended` at the default configuration and error 5. -/
theorem c1_amended_witness :
    ({} : DualWriteConfig).enabled = true ∧
    ({} : DualWriteConfig).write_to_new = true ∧
    ({} : DualWriteConfig).write_to_legacy = true ∧
    ({} : DualWriteConfig).fail_on_legacy_error = false ∧
    ∃ r : DualWriteResult Nat,
      dual_write ({} : DualWriteConfig) none (some 5) none = .ok r ∧
      r.new_db_success = true ∧ r.legacy_db_success = false ∧
      r.legacy_db_error = some 5 ∧ r.success = false :=
  ⟨rfl, rfl, rfl, rfl, c1_amended {} 5 none rfl rfl rfl rfl⟩

/-- Claim C2 (confirmed): in the state produced by
`switch_to_legacy_db_only` (write_to_legacy=true, write_to_new=false) with
dual-write still enabled, the new-store fields stay at their defaults, so
every result `dual_write` returns has `new_db_success = false` and hence
derived `success = false` — even when the legacy-store operation commits
successfully. -/
theorem c2_theorem {E : Type} (cfg : DualWriteConfig)
    (hen : cfg.enabled = true) (hwn : cfg.write_to_new = false)
    (hwl : cfg.write_to_legacy = true) :
    (∀ s : DualWriteSettings,
      (switch_to_legacy_db_only s).1.write_to_new = false ∧
      (switch_to_legacy_db_only s).1.write_to_legacy = true ∧
      (switch_to_legacy_db_only s).1.enabled = s.enabled) ∧
    (∀ (new_op : Option E) (v : Option (Except E Bool)),
      ∃ r : DualWriteResult E,
        dual_write cfg new_op none v = .ok r ∧
        r.new_db_success = false ∧ r.legacy_db_success = true ∧
        r.success = false) ∧
    (∀ (new_op legacy_op : Option E) (v : Option (Except E Bool))
       (r : DualWriteResult E),
      dual_write cfg new_op legacy_op v = .ok r →
        r.new_db_success = false ∧ r.success = false) := by
  refine ⟨fun s => ⟨rfl, rfl, rfl⟩, ?_, ?_⟩
  · intro new_op v
    have hg : gatherWrites cfg new_op none =
        ({ legacy_db_success := true } : DualWriteResult E) := by
      unfold gatherWrites
      rw [hwn, hwl]
      rfl
    obtain ⟨h1, h2, h3, h4⟩ := applyValidation_preserves cfg v (gatherWrites cfg new_op none)
    refine ⟨applyValidation cfg v (gatherWrites cfg new_op none), ?_, ?_, ?_, ?_⟩
    · rw [dual_write_enabled cfg new_op none v hen]
      exact applyFailPolicy_ok_of_noErrors cfg _ (by rw [h3, hg]) (by rw [h4, hg])
    · rw [h1, hg]
    · rw [h2, hg]
    · rw [applyValidation_success cfg v _, hg]
      rfl
  · intro new_op legacy_op v r hr
    rw [dual_write_enabled cfg new_op legacy_op v hen] at hr
    have heq := applyFailPolicy_ok_eq cfg _ r hr
    obtain ⟨h1, _, _, _⟩ :=
      applyValidation_preserves cfg v (gatherWrites cfg new_op legacy_op)
    obtain ⟨hg1, _⟩ := gatherWrites_no_new cfg new_op legacy_op hwn
    have hns : r.new_db_success = false := by rw [heq, h1, hg1]
    refine ⟨hns, ?_⟩
    unfold DualWriteResult.success
    rw [hns]
    rfl

/-- Witness for `c2_theorem`: enabled with only the legacy write on. -/
theorem c2_theorem_witness :
    ({ write_to_new := false } : DualWriteConfig).enabled = true ∧
    ({ write_to_new := false } : DualWriteConfig).write_to_new = false ∧
    ({ write_to_new := false } : DualWriteConfig).write_to_legacy = true ∧
    ((∀ s : DualWriteSettings,
      (switch_to_legacy_db_only s).1.write_to_new = false ∧
      (switch_to_legacy_db_only s).1.write_to_legacy = true ∧
      (switch_to_legacy_db_only s).1.enabled = s.enabled) ∧
    (∀ (new_op : Option Nat) (v : Option (Except Nat Bool)),
      ∃ r : DualWriteResult Nat,
        dual_write ({ write_to_new := false } : DualWriteConfig) new_op none v = .ok r ∧
        r.new_db_success = false ∧ r.legacy_db_success = true ∧
        r.success = false) ∧
    (∀ (new_op legacy_op : Option Nat) (v : Option (Except Nat Bool))
       (r : DualWriteResult Nat),
      dual_write ({ write_to_new := false } : DualWriteConfig) new_op legacy_op v = .ok r →
        r.new_db_success = false ∧ r.success = false)) :=
  ⟨rfl, rfl, rfl, c2_theorem { write_to_new := false } rfl rfl rfl⟩

/-- Claim C3 (confirmed): with dual-write enabled, the new-store write on
and `fail_on_new_error=true`, a raising new-store operation has its
exception recorded on the result (`new_db_error = some e`) and
`dual_write` then raises exactly that original exception. -/
theorem c3_theorem {E : Type} (cfg : DualWriteConfig) (e : E)
    (legacy_op : Option E) (v : Option (Except E Bool))
    (hen : cfg.enabled = true) (hfn : cfg.fail_on_new_error = true)
    (hwn : cfg.write_to_new = true) :
    (gatherWrites cfg (some e) legacy_op).new_db_error = some e ∧
    dual_write cfg (some e) legacy_op v = .error e := by
  have hg := gatherWrites_new_error cfg e legacy_op hwn
  refine ⟨hg, ?_⟩
  rw [dual_write_enabled cfg (some e) legacy_op v hen]
  have hne : (applyValidation cfg v (gatherWrites cfg (some e) legacy_op)).new_db_error =
      some e := by
    rw [(applyValidation_preserves cfg v _).2.2.1, hg]
  unfold applyFailPolicy
  rw [hfn, hne]
  simp

/-- Witness for `c3_theorem` at the default configuration and error 3. -/
theorem c3_theorem_witness :
    ({} : DualWriteConfig).enabled = true ∧
    ({} : DualWriteConfig).fail_on_new_error = true ∧
    ({} : DualWriteConfig).write_to_new = true ∧
    ((gatherWrites ({} : DualWriteConfig) (some 3) (none : Option Nat)).new_db_error =
        some 3 ∧
      dual_write ({} : DualWriteConfig) (some 3) (none : Option Nat) none = .error 3) :=
  ⟨rfl, rfl, rfl, c3_theorem {} 3 none none rfl rfl rfl⟩

/-- Claim C4 (confirmed): with `enabled=false`, the outcome of
`dual_write` is independent of the legacy-store operation and of the
validation operation (neither is invoked), and it exactly mirrors the
new-store operation: a success returns a result with
`new_db_success = true`, and an exception is re-raised unchanged whatever
the `fail_on_new_error` flag. -/
theorem c4_theorem {E : Type} (cfg : DualWriteConfig)
    (hen : cfg.enabled = false) :
    (∀ (new_op legacy_op legacy_op₂ : Option E)
       (v v₂ : Option (Except E Bool)),
      dual_write cfg new_op legacy_op v = dual_write cfg new_op legacy_op₂ v₂) ∧
    (∀ (legacy_op : Option E) (v : Option (Except E Bool)),
      dual_write cfg none legacy_op v =
        .ok ({ new_db_success := true } : DualWriteResult E)) ∧
    (∀ (e : E) (legacy_op : Option E) (v : Option (Except E Bool)),
      dual_write cfg (some e) legacy_op v = .error e) := by
  have hd : ∀ (n l : Option E) (v : Option (Except E Bool)),
      dual_write cfg n l v = execute_new_db_only n {} := by
    intro n l v
    simp [dual_write, hen]
  exact ⟨fun n l l₂ v v₂ => by rw [hd, hd],
    fun l v => by rw [hd]; rfl,
    fun e l v => by rw [hd]; rfl⟩

/-- Witness for `c4_theorem` with dual-write disabled. -/
theorem c4_theorem_witness :
    ({ enabled := false } : DualWriteConfig).enabled = false ∧
    ((∀ (new_op legacy_op legacy_op₂ : Option Nat)
       (v v₂ : Option (Except Nat Bool)),
      dual_write ({ enabled := false } : DualWriteConfig) new_op legacy_op v =
        dual_write ({ enabled := false } : DualWriteConfig) new_op legacy_op₂ v₂) ∧
    (∀ (legacy_op : Option Nat) (v : Option (Except Nat Bool)),
      dual_write ({ enabled := false } : DualWriteConfig) none legacy_op v =
        .ok ({ new_db_success := true } : DualWriteResult Nat)) ∧
    (∀ (e : Nat) (legacy_op : Option Nat) (v : Option (Except Nat Bool)),
      dual_write ({ enabled := false } : DualWriteConfig) (some e) legacy_op v =
        .error e)) :=
  ⟨rfl, c4_theorem { enabled := false } rfl⟩

/-- Claim C5 (confirmed): with dual-write enabled and `validate_sync=true`,
a raising validation operation behaves exactly like one returning `False`:
the exception never escapes `dual_write`, any returned result carries
`sync_validated = false`, and the per-store success and error fields are
exactly those recorded by the write phase, unchanged by validation. -/
theorem c5_theorem {E : Type} (cfg : DualWriteConfig)
    (n l : Option E) (e : E)
    (hen : cfg.enabled = true) (hvs : cfg.validate_sync = true) :
    dual_write cfg n l (some (.error e)) = dual_write cfg n l (some (.ok false)) ∧
    ∀ r : DualWriteResult E,
      dual_write cfg n l (some (.error e)) = .ok r →
        r.sync_validated = false ∧
        r.new_db_success = (gatherWrites cfg n l).new_db_success ∧
        r.legacy_db_success = (gatherWrites cfg n l).legacy_db_success ∧
        r.new_db_error = (gatherWrites cfg n l).new_db_error ∧
        r.legacy_db_error = (gatherWrites cfg n l).legacy_db_error := by
  have hv : applyValidation cfg (some (.error e)) (gatherWrites cfg n l) =
      { gatherWrites cfg n l with sync_validated := false } := by
    unfold applyValidation
    rw [hvs]
    rfl
  have hv₂ : applyValidation cfg (some (.ok false)) (gatherWrites cfg n l) =
      { gatherWrites cfg n l with sync_validated := false } := by
    unfold applyValidation
    rw [hvs]
    rfl
  constructor
  · rw [dual_write_enabled cfg n l _ hen, dual_write_enabled cfg n l _ hen, hv, hv₂]
  · intro r hr
    rw [dual_write_enabled cfg n l _ hen, hv] at hr
    have heq := applyFailPolicy_ok_eq cfg _ r hr
    rw [heq]
    exact ⟨rfl, rfl, rfl, rfl, rfl⟩

/-- Witness for `c5_theorem` at the default configuration. -/
theorem c5_theorem_witness :
    ({} : DualWriteConfig).enabled = true ∧
    ({} : DualWriteConfig).validate_sync = true ∧
    (dual_write ({} : DualWriteConfig) (none : Option Nat) none (some (.error 9)) =
        dual_write ({} : DualWriteConfig) none none (some (.ok false)) ∧
      ∀ r : DualWriteResult Nat,
        dual_write ({} : DualWriteConfig) none none (some (.error 9)) = .ok r →
          r.sync_validated = false ∧
          r.new_db_success =
            (gatherWrites ({} : DualWriteConfig) (none : Option Nat) none).new_db_success ∧
          r.legacy_db_success =
            (gatherWrites ({} : DualWriteConfig) (none : Option Nat) none).legacy_db_success ∧
          r.new_db_error =
            (gatherWrites ({} : DualWriteConfig) (none : Option Nat) none).new_db_error ∧
          r.legacy_db_error =
            (gatherWrites ({} : DualWriteConfig) (none : Option Nat) none).legacy_db_error) :=
  ⟨rfl, rfl, c5_theorem {} none none 9 rfl rfl⟩

/-- Claim C6 (confirmed): when both fetches complete, two absent rows give
`is_synchronized = true` with no differences; exactly one absent row gives
`is_synchronized = false`, an empty difference list, and the existence
mismatch is reported only through `error_message`. -/
theorem c6_theorem (entity_id entity_type : String) (ignore_fields : List String) :
    ((validate_entity_sync entity_id entity_type (.ok none) (.ok none)
        ignore_fields).is_synchronized = true ∧
      (validate_entity_sync entity_id entity_type (.ok none) (.ok none)
        ignore_fields).differences = []) ∧
    (∀ row : Row,
      (validate_entity_sync entity_id entity_type (.ok (some row)) (.ok none)
          ignore_fields).is_synchronized = false ∧
        (validate_entity_sync entity_id entity_type (.ok (some row)) (.ok none)
          ignore_fields).differences = [] ∧
        (validate_entity_sync entity_id entity_type (.ok (some row)) (.ok none)
          ignore_fields).error_message =
          some "Entity exists in only one database: new_db=True, legacy_db=False") ∧
    (∀ row : Row,
      (validate_entity_sync entity_id entity_type (.ok none) (.ok (some row))
          ignore_fields).is_synchronized = false ∧
        (validate_entity_sync entity_id entity_type (.ok none) (.ok (some row))
          ignore_fields).differences = [] ∧
        (validate_entity_sync entity_id entity_type (.ok none) (.ok (some row))
          ignore_fields).error_message =
          some "Entity exists in only one database: new_db=False, legacy_db=True") :=
  ⟨⟨rfl, rfl⟩, fun _ => ⟨rfl, rfl, rfl⟩, fun _ => ⟨rfl, rfl, rfl⟩⟩

/-- The comparison loop of `_compare_entity_data`, characterized: starting
from accumulator `(s₀, d₀)` it conjoins "no difference found" onto `s₀`
and appends the differences of the scanned fields in order. -/
theorem compare_loop_spec (n l : Row) (ig fs : List String) (s₀ : Bool) (d₀ : List Diff) :
    fs.foldl
      (fun acc f =>
        match diffOfField n l ig f with
        | some d => (false, acc.2 ++ [d])
        | none => acc)
      (s₀, d₀) =
    (s₀ && (fs.filterMap (diffOfField n l ig)).isEmpty,
      d₀ ++ fs.filterMap (diffOfField n l ig)) := by
  induction fs generalizing s₀ d₀ with
  | nil => simp
  | cons f fs ih =>
    cases h : diffOfField n l ig f with
    | none => simp [List.foldl_cons, List.filterMap_cons, h, ih]
    | some d => simp [List.foldl_cons, List.filterMap_cons, h, ih]

/-- `_compare_entity_data` returns the in-order differences of the union
of fields, and is synchronized exactly when there are none. -/
theorem compare_entity_data_spec (n l : Row) (ig : List String) :
    compare_entity_data n l ig =
      (((allFields n l).filterMap (diffOfField n l ig)).isEmpty,
        (allFields n l).filterMap (diffOfField n l ig)) := by
  unfold compare_entity_data
  rw [compare_loop_spec]
  simp

/-- Inversion for one field of the comparison loop. -/
theorem diffOfField_some (n l : Row) (ig : List String) (f : String) (d : Diff)
    (h : diffOfField n l ig f = some d) :
    ig.contains f = false ∧
    normalize_value (rowGet n f) ≠ normalize_value (rowGet l f) ∧
    d = { field := f, new_db_value := rowGet n f, legacy_db_value := rowGet l f } := by
  unfold diffOfField at h
  split at h
  · cases h
  · dsimp only at h
    split at h
    · refine ⟨by simp_all, by assumption, ?_⟩
      cases h
      rfl
    · cases h

/-- A field that is not ignored and whose normalized values differ
produces its difference entry. -/
theorem diffOfField_some_of (n l : Row) (ig : List String) (f : String)
    (hc : ig.contains f = false)
    (hne : normalize_value (rowGet n f) ≠ normalize_value (rowGet l f)) :
    diffOfField n l ig f =
      some { field := f, new_db_value := rowGet n f, legacy_db_value := rowGet l f } := by
  unfold diffOfField
  rw [hc, if_neg (by simp), if_pos hne]

/-- Claim C7, counterexample.  The values 1.004 and 1.006 differ only
beyond the 2nd decimal place (their truncations to 2 decimals agree), yet
`_normalize_value` rounds them to 1.00 and 1.01, they compare as unequal,
and the field produces a difference entry. -/
theorem c7_counterexample :
    (⌊(251 / 250 : Rat) * 100⌋ = 100 ∧ ⌊(503 / 500 : Rat) * 100⌋ = 100 ∧
      (251 / 250 : Rat) ≠ (503 / 500 : Rat)) ∧
    normalize_value (.vnum (251 / 250)) ≠ normalize_value (.vnum (503 / 500)) ∧
    compare_entity_data [("price", .vnum (251 / 250))]
        [("price", .vnum (503 / 500))] [] =
      (false,
        [{ field := "price", new_db_value := .vnum (251 / 250),
           legacy_db_value := .vnum (503 / 500) }]) := by
  have hfloor₁ : (⌊(251 / 250 : Rat) * 100⌋ : Int) = 100 := by
    rw [show (251 / 250 : Rat) * 100 = 502 / 5 by norm_num]
    rw [Int.floor_eq_iff]
    norm_num
  have hfloor₂ : (⌊(503 / 500 : Rat) * 100⌋ : Int) = 100 := by
    rw [show (503 / 500 : Rat) * 100 = 503 / 5 by norm_num]
    rw [Int.floor_eq_iff]
    norm_num
  have hr₁ : roundHalfEven ((251 / 250 : Rat) * 100) = 100 := by
    unfold roundHalfEven
    rw [hfloor₁, if_pos (by norm_num)]
  have hr₂ : roundHalfEven ((503 / 500 : Rat) * 100) = 101 := by
    unfold roundHalfEven
    rw [hfloor₂, if_neg (by norm_num), if_pos (by norm_num)]
    norm_num
  have hne : normalize_value (.vnum (251 / 250)) ≠ normalize_value (.vnum (503 / 500)) := by
    simp only [normalize_value, pyRound2, hr₁, hr₂, PyValue.vnum.injEq, ne_eq]
    norm_num
  refine ⟨⟨hfloor₁, hfloor₂, by norm_num⟩, hne, ?_⟩
  have hd : diffOfField [("price", PyValue.vnum (251 / 250))]
      [("price", PyValue.vnum (503 / 500))] [] "price" =
      some { field := "price", new_db_value := PyValue.vnum (251 / 250),
             legacy_db_value := PyValue.vnum (503 / 500) } := by
    have := diffOfField_some_of [("price", PyValue.vnum (251 / 250))]
      [("price", PyValue.vnum (503 / 500))] [] "price" rfl (by exact hne)
    simpa using this
  rw [compare_entity_data_spec]
  have hall : allFields [("price", PyValue.vnum (251 / 250))]
      [("price", PyValue.vnum (503 / 500))] = ["price"] := rfl
  rw [hall]
  simp [List.filterMap_cons, hd]

/-- Claim C7, amended.  Timestamps differing only in sub-second precision
and strings differing only in surrounding whitespace compare as equal; a
null normalizes only to null, so it never compares equal to a non-null
value; every difference entry carries the raw (un-normalized) values of a
field whose normalized values differ, and every non-ignored field whose
normalized values differ is entered; but two numeric values compare as
equal exactly when they round (half-to-even) to the same 2-decimal value —
which values differing only beyond the 2nd decimal place need not do. -/
theorem c7_amended :
    (∀ (sec : Int) (u₁ u₂ : Nat),
      normalize_value (.vdatetime sec u₁) = normalize_value (.vdatetime sec u₂)) ∧
    (∀ s t : String, pyStrip s = pyStrip t →
      normalize_value (.vstr s) = normalize_value (.vstr t)) ∧
    (∀ v : PyValue, normalize_value v = .vnull ↔ v = .vnull) ∧
    (∀ q₁ q₂ : Rat,
      normalize_value (.vnum q₁) = normalize_value (.vnum q₂) ↔
        pyRound2 q₁ = pyRound2 q₂) ∧
    (∀ (n l : Row) (ig : List String) (d : Diff),
      d ∈ (compare_entity_data n l ig).2 →
        d.new_db_value = rowGet n d.field ∧
        d.legacy_db_value = rowGet l d.field ∧
        normalize_value d.new_db_value ≠ normalize_value d.legacy_db_value) ∧
    (∀ (n l : Row) (ig : List String) (f : String),
      f ∈ allFields n l → ig.contains f = false →
      normalize_value (rowGet n f) ≠ normalize_value (rowGet l f) →
      ({ field := f, new_db_value := rowGet n f,
         legacy_db_value := rowGet l f } : Diff) ∈ (compare_entity_data n l ig).2) := by
  refine ⟨fun sec u₁ u₂ => rfl, fun s t h => by simp [normalize_value, h],
    fun v => by cases v <;> simp [normalize_value],
    fun q₁ q₂ => by simp [normalize_value],
    ?_, ?_⟩
  · intro n l ig d hd
    rw [compare_entity_data_spec] at hd
    obtain ⟨f, _, hf⟩ := List.mem_filterMap.mp hd
    obtain ⟨_, hne, hdeq⟩ := diffOfField_some n l ig f d hf
    subst hdeq
    exact ⟨rfl, rfl, hne⟩
  · intro n l ig f hmem hc hne
    rw [compare_entity_data_spec]
    exact List.mem_filterMap.mpr ⟨f, hmem, diffOfField_some_of n l ig f hc hne⟩

/-- Claim C8, counterexample.  A single `update_settings` call starting
from the default settings turns both write flags off while `enabled` stays
true, and it emits no warning (it warns only on unknown setting names); a
`dual_write` executed in that state is likewise accepted without any flag,
performs no store operation, and returns a result whose derived success is
false. -/
theorem c8_counterexample :
    (update_settings ({} : DualWriteSettings)
        { write_to_legacy := some false, write_to_new := some false }).1.enabled = true ∧
    (update_settings ({} : DualWriteSettings)
        { write_to_legacy := some false,
          write_to_new := some false }).1.write_to_legacy = false ∧
    (update_settings ({} : DualWriteSettings)
        { write_to_legacy := some false, write_to_new := some false }).1.write_to_new = false ∧
    (update_settings ({} : DualWriteSettings)
        { write_to_legacy := some false, write_to_new := some false }).2 = [] ∧
    dual_write ({ write_to_legacy := false, write_to_new := false } : DualWriteConfig)
        (none : Option Nat) none none = .ok {} ∧
    DualWriteResult.success ({} : DualWriteResult Nat) = false :=
  ⟨rfl, rfl, rfl, rfl, rfl, rfl⟩

/-- Claim C8, amended.  A zero-writer configuration (enabled with both
write flags false) is silently accepted: `update_settings` warns only
about unknown setting names, so a well-formed mutation reaching that state
produces no warning and no rejection, and `dual_write` under that state
invokes neither store operation (its outcome is independent of both
operations) and returns normally with derived success false. -/
theorem c8_amended {E : Type} (s : DualWriteSettings) (u : SettingsUpdate)
    (hu : u.unknown_keys = []) :
    (update_settings s u).2 = [] ∧
    ∀ cfg : DualWriteConfig, cfg.enabled = true → cfg.write_to_legacy = false →
      cfg.write_to_new = false →
      ∀ (new_op new_op₂ legacy_op legacy_op₂ : Option E) (v : Option (Except E Bool)),
        dual_write cfg new_op legacy_op v = dual_write cfg new_op₂ legacy_op₂ v ∧
        ∃ r : DualWriteResult E,
          dual_write cfg new_op legacy_op v = .ok r ∧ r.success = false := by
  constructor
  · unfold update_settings
    rw [hu]
    rfl
  · intro cfg hen hwl hwn new_op new_op₂ legacy_op legacy_op₂ v
    have hg : ∀ n l : Option E, gatherWrites cfg n l = ({} : DualWriteResult E) := by
      intro n l
      unfold gatherWrites
      rw [hwl, hwn]
      rfl
    constructor
    · rw [dual_write_enabled cfg new_op legacy_op v hen,
        dual_write_enabled cfg new_op₂ legacy_op₂ v hen, hg, hg]
    · obtain ⟨h₁, h₂, h₃, h₄⟩ := applyValidation_preserves cfg v ({} : DualWriteResult E)
      refine ⟨applyValidation cfg v ({} : DualWriteResult E), ?_, ?_⟩
      · rw [dual_write_enabled cfg new_op legacy_op v hen, hg]
        exact applyFailPolicy_ok_of_noErrors cfg _ (by rw [h₃]) (by rw [h₄])
      · rw [applyValidation_success cfg v _]
        rfl

/-- Witness for `c8_amended` with an update that turns both writers off. -/
theorem c8_amended_witness :
    ({ write_to_legacy := some false, write_to_new := some false } :
        SettingsUpdate).unknown_keys = [] ∧
    ((update_settings ({} : DualWriteSettings)
        { write_to_legacy := some false, write_to_new := some false }).2 = [] ∧
      ∀ cfg : DualWriteConfig, cfg.enabled = true → cfg.write_to_legacy = false →
        cfg.write_to_new = false →
        ∀ (new_op new_op₂ legacy_op legacy_op₂ : Option Nat)
          (v : Option (Except Nat Bool)),
          dual_write cfg new_op legacy_op v = dual_write cfg new_op₂ legacy_op₂ v ∧
          ∃ r : DualWriteResult Nat,
            dual_write cfg new_op legacy_op v = .ok r ∧ r.success = false) :=
  ⟨rfl, c8_amended {} { write_to_legacy := some false, write_to_new := some false } rfl⟩

/-- Claim C9 (confirmed), per variable: whenever one integer-valued
dual-write environment variable is set to a string that does not parse as
a Python integer, loading never raises (`from_env` is total) and that
field alone falls back to its documented default — 300 for
DUAL_WRITE_SYNC_INTERVAL and 100 for DUAL_WRITE_BATCH_SIZE — regardless
of what the other variables hold. -/
theorem c9_theorem (env : Env) (sn s₁ s₂ : String) :
    (List.lookup (envKey sn "DUAL_WRITE_SYNC_INTERVAL") env = some s₁ →
      pyIntParse s₁ = none →
      (DualWriteSettings.from_env env sn).sync_validation_interval = 300) ∧
    (List.lookup (envKey sn "DUAL_WRITE_BATCH_SIZE") env = some s₂ →
      pyIntParse s₂ = none →
      (DualWriteSettings.from_env env sn).batch_size = 100) := by
  constructor
  · intro h₁ hp₁
    show get_int_env env (envKey sn "DUAL_WRITE_SYNC_INTERVAL") 300 = 300
    unfold get_int_env envGet
    rw [h₁]
    simp [hp₁]
  · intro h₂ hp₂
    show get_int_env env (envKey sn "DUAL_WRITE_BATCH_SIZE") 100 = 100
    unfold get_int_env envGet
    rw [h₂]
    simp [hp₂]

/-- Witness for `c9_theorem`, one environment per variable, each with only
that variable malformed and the other unset. -/
theorem c9_theorem_witness :
    List.lookup (envKey "" "DUAL_WRITE_SYNC_INTERVAL")
        [("DUAL_WRITE_SYNC_INTERVAL", "five")] = some "five" ∧
    pyIntParse "five" = none ∧
    (DualWriteSettings.from_env [("DUAL_WRITE_SYNC_INTERVAL", "five")]
        "").sync_validation_interval = 300 ∧
    List.lookup (envKey "" "DUAL_WRITE_BATCH_SIZE")
        [("DUAL_WRITE_BATCH_SIZE", "1e3")] = some "1e3" ∧
    pyIntParse "1e3" = none ∧
    (DualWriteSettings.from_env [("DUAL_WRITE_BATCH_SIZE", "1e3")] "").batch_size = 100 :=
  ⟨by decide, by decide,
    (c9_theorem [("DUAL_WRITE_SYNC_INTERVAL", "five")] "" "five" "0").1
      (by decide) (by decide),
    by decide, by decide,
    (c9_theorem [("DUAL_WRITE_BATCH_SIZE", "1e3")] "" "0" "1e3").2
      (by decide) (by decide)⟩

/-- Claim C10 (confirmed): every boolean dual-write setting read by
`from_env` is true exactly when the variable value (or the stringified
default when unset) lowercases to one of true, 1, yes, on; hence a
malformed boolean such as "enabled" or "TRUE " (trailing blank) yields
false even for a flag whose documented default is true — it does not fall
back to the default. -/
theorem c10_theorem (env : Env) (sn key : String) (b : Bool) :
    (get_bool_env env key b =
      ["true", "1", "yes", "on"].contains (pyLower (envGet env key (pyStrOfBool b)))) ∧
    ((DualWriteSettings.from_env env sn).enabled =
      get_bool_env env (envKey sn "DUAL_WRITE_ENABLED") true) ∧
    ((DualWriteSettings.from_env env sn).write_to_legacy =
      get_bool_env env (envKey sn "DUAL_WRITE_TO_LEGACY") true) ∧
    ((DualWriteSettings.from_env env sn).write_to_new =
      get_bool_env env (envKey sn "DUAL_WRITE_TO_NEW") true) ∧
    ((DualWriteSettings.from_env env sn).fail_on_legacy_error =
      get_bool_env env (envKey sn "DUAL_WRITE_FAIL_ON_LEGACY_ERROR") false) ∧
    ((DualWriteSettings.from_env env sn).fail_on_new_error =
      get_bool_env env (envKey sn "DUAL_WRITE_FAIL_ON_NEW_ERROR") true) ∧
    ((DualWriteSettings.from_env env sn).validate_sync =
      get_bool_env env (envKey sn "DUAL_WRITE_VALIDATE_SYNC") true) ∧
    ((DualWriteSettings.from_env env sn).async_legacy_writes =
      get_bool_env env (envKey sn "DUAL_WRITE_ASYNC_LEGACY") true) ∧
    ((DualWriteSettings.from_env env sn).log_all_operations =
      get_bool_env env (envKey sn "DUAL_WRITE_LOG_ALL") false) ∧
    ((DualWriteSettings.from_env env sn).log_errors_only =
      get_bool_env env (envKey sn "DUAL_WRITE_LOG_ERRORS_ONLY") true) ∧
    ((DualWriteSettings.from_env env sn).metrics_enabled =
      get_bool_env env (envKey sn "DUAL_WRITE_METRICS_ENABLED") true) ∧
    (DualWriteSettings.from_env [("DUAL_WRITE_ENABLED", "enabled")] "").enabled = false ∧
    (DualWriteSettings.from_env [("DUAL_WRITE_ENABLED", "TRUE ")] "").enabled = false :=
  ⟨rfl, rfl, rfl, rfl, rfl, rfl, rfl, rfl, rfl, rfl, rfl, by decide, by decide⟩

/-- Witness for `c7_amended`, discharging its conditional parts at
concrete inputs: equal-after-strip strings normalize equal, and a
normalized mismatch on a concrete single-field row is entered into the
difference list with the raw values. -/
theorem c7_amended_witness :
    pyStrip " a" = pyStrip "a " ∧
    normalize_value (.vstr " a") = normalize_value (.vstr "a ") ∧
    (normalize_value (.vnum 3) = normalize_value (.vnum 3) ↔
      pyRound2 3 = pyRound2 3) ∧
    ("x" ∈ allFields [("x", PyValue.vnull)] [("x", PyValue.vstr "y")] ∧
      ([] : List String).contains "x" = false ∧
      normalize_value (rowGet [("x", PyValue.vnull)] "x") ≠
        normalize_value (rowGet [("x", PyValue.vstr "y")] "x") ∧
      ({ field := "x", new_db_value := rowGet [("x", PyValue.vnull)] "x",
         legacy_db_value := rowGet [("x", PyValue.vstr "y")] "x" } : Diff) ∈
        (compare_entity_data [("x", PyValue.vnull)] [("x", PyValue.vstr "y")] []).2) :=
  ⟨by decide, c7_amended.2.1 " a" "a " (by decide), c7_amended.2.2.2.1 3 3,
    by decide, by decide, by decide,
    c7_amended.2.2.2.2.2 [("x", PyValue.vnull)] [("x", PyValue.vstr "y")] [] "x"
      (by decide) (by decide) (by decide)⟩
